import Mathlib

/-!
Verification of the ELIT21 storefront's checkout / payment-reconciliation core
(`elit21/web/app.py`, `elit21/admin/app.py`, schema in `elit21/db.py`).

The SQLite store is modelled as lists of rows; each Python handler that the
claims mention is translated into a pure function over that state.  SQLite's
transaction semantics are explicit: every handler either commits its final
state or returns the state from before the transaction (a close without
commit rolls the transaction back).  Python `float` money values are
modelled as exact rationals; `Decimal(...).quantize(Decimal("0.01"),
ROUND_HALF_UP)` is `roundHalfUpCents` (value in integer cents).
-/

/-! ## Money (`to_money`, `money_as_text`, `format(..., ".2f")`) -/

/-- Python `Decimal(str(v)).quantize(Decimal("0.01"), rounding=ROUND_HALF_UP)`,
returned as a number of cents.  ROUND_HALF_UP rounds halves away from zero. -/
def roundHalfUpCents (q : ℚ) : ℤ :=
  if 0 ≤ q then Rat.floor (q * 100 + 1 / 2) else -Rat.floor (-(q * 100) + 1 / 2)

/-- Python `format(value, ".2f")` applied to a non-negative amount given in cents. -/
def moneyText (c : ℤ) : String :=
  let r := (c % 100).toNat
  toString (c / 100) ++ "." ++ (if r < 10 then "0" else "") ++ toString r

/-- An amount representable exactly with two decimal places (a money value). -/
def isCents (q : ℚ) : Prop := ∃ n : ℤ, q = (n : ℚ) / 100

/-! ## Data model (tables from `elit21/db.py` and the inventory table) -/

/-- The variant key `(product_id, color, size)`; `product_inventory` has a
unique index on it (`ON CONFLICT(product_id, color, size)`). -/
structure VariantKey where
  productId : Nat
  color : String
  size : String
deriving DecidableEq

/-- A `product_inventory` row. -/
structure InvRow where
  key : VariantKey
  quantity : ℤ
deriving DecidableEq

/-- A `products` row (the columns the checkout core reads). -/
structure Product where
  id : Nat
  name : String
  price : ℚ
  status : String
  stock : ℤ
deriving DecidableEq

/-- A `users` row (the columns the checkout core reads). -/
structure User where
  id : Nat
  email : String
deriving DecidableEq

/-- An `orders` row. -/
structure Order where
  id : Nat
  customerName : String
  customerEmail : String
  customerAddress : String
  status : String
  paymentStatus : String
  shippingFee : ℚ
  total : ℚ
deriving DecidableEq

/-- An `order_items` row. -/
structure OrderItem where
  orderId : Nat
  key : VariantKey
  productName : String
  quantity : Nat
  price : ℚ
deriving DecidableEq

/-- A `transactions` row (`order_id`, `total`; `completed_at` is a wall-clock
timestamp and is not modelled). -/
structure Txn where
  orderId : Nat
  total : ℚ
deriving DecidableEq

/-- The relational store. -/
structure DB where
  users : List User
  products : List Product
  inventory : List InvRow
  orders : List Order
  orderItems : List OrderItem
  transactions : List Txn
deriving DecidableEq

/-- The session cart: variant key ↦ positive quantity (`session["cart"]`). -/
abbrev Cart := List (VariantKey × Nat)

/-! ## Row lookups (the `SELECT ... WHERE` statements) -/

def findUser (db : DB) (uid : Nat) : Option User :=
  db.users.find? (fun u => u.id = uid)

def findOrder (db : DB) (i : Nat) : Option Order :=
  db.orders.find? (fun o => o.id = i)

def findInv (db : DB) (k : VariantKey) : Option InvRow :=
  db.inventory.find? (fun r => r.key = k)

def findProduct (db : DB) (pid : Nat) : Option Product :=
  db.products.find? (fun p => p.id = pid)

/-- The query `SELECT * FROM order_items WHERE order_id = ?`. -/
def itemsFor (db : DB) (oid : Nat) : List OrderItem :=
  db.orderItems.filter (fun it => it.orderId = oid)

/-- The query `SELECT COALESCE(SUM(quantity), 0) FROM product_inventory WHERE product_id = ?`. -/
def sumQtyL (l : List InvRow) (pid : Nat) : ℤ :=
  ((l.filter (fun r => r.key.productId = pid)).map (fun r => r.quantity)).sum

def sumQty (db : DB) (pid : Nat) : ℤ := sumQtyL db.inventory pid

/-- Per order, what `SELECT ... FROM transactions WHERE order_id = ?` counts:
the number of Transaction rows recorded for an order. -/
def txCount (db : DB) (oid : Nat) : Nat :=
  (db.transactions.filter (fun t => t.orderId = oid)).length

/-! ## Cart update route (`update_cart_item`, web/app.py 499-528) -/

/-- Python `str.isdigit()` (restricted to ASCII digits, which is what the
quantity form field can contain). -/
def pyIsDigit (s : String) : Bool :=
  s ≠ "" && s.toList.all Char.isDigit

/-- Python `int(s)` for a string of digits. -/
def digitsToNat (s : String) : Nat :=
  s.toList.foldl (fun acc c => acc * 10 + (c.toNat - '0'.toNat)) 0

inductive CartUpdateResult where
  | invalidQuantity
  | insufficientStock
  | ok
deriving DecidableEq

/-- Python dict assignment `cart[cart_key] = quantity`. -/
def setCartQty (cart : Cart) (k : VariantKey) (n : Nat) : Cart :=
  if cart.any (fun e => e.1 = k) then
    cart.map (fun e => if e.1 = k then (k, n) else e)
  else
    cart ++ [(k, n)]

/-- Route `update_cart_item`: parse the quantity string with `isdigit`, treat an
empty cart key as absent, pop the entry on `quantity <= 0`, otherwise check
the inventory row before updating. -/
def updateCartItem (db : DB) (cart : Cart) (quantityStr : String)
    (cartKey : Option VariantKey) : CartUpdateResult × Cart :=
  if ¬ pyIsDigit quantityStr then (.invalidQuantity, cart)
  else
    let quantity := digitsToNat quantityStr
    match cartKey with
    | none => (.ok, cart)
    | some k =>
      if quantity ≤ 0 then (.ok, cart.filter (fun e => e.1 ≠ k))
      else
        match findInv db k with
        | none => (.insufficientStock, cart)
        | some r =>
          if r.quantity < (quantity : ℤ) then (.insufficientStock, cart)
          else (.ok, setCartQty cart k quantity)

/-! ## SQLite connection (one transaction per request)

Statements act on `cur`; `commit` publishes it; closing the connection
without a commit (or an explicit `rollback()`) discards `cur` and leaves the
store at `base`. -/

structure Conn where
  base : DB
  cur : DB

def Conn.open_ (db : DB) : Conn := ⟨db, db⟩

def Conn.commit (c : Conn) : DB := c.cur

def Conn.abort (c : Conn) : DB := c.base

/-! ## Order creation (`create_paypal_order`, web/app.py 622-817) -/

/-- The shipping form fields, already `.strip()`-ed. -/
structure ShippingInput where
  customerName : String
  houseNumber : String
  street : String
  apartment : String
  city : String
  province : String
  country : String
  postalCode : String

structure ShippingData where
  customerName : String
  address : String

/-- Helper `collect_shipping_data`: every required field non-empty, apartment
optional; builds the address block. -/
def collectShippingData (f : ShippingInput) : Option ShippingData :=
  if f.customerName ≠ "" && f.houseNumber ≠ "" && f.street ≠ "" && f.city ≠ ""
      && f.province ≠ "" && f.country ≠ "" && f.postalCode ≠ "" then
    let line0 := f.houseNumber ++ " " ++ f.street
    let line := if f.apartment ≠ "" then line0 ++ ", Apt " ++ f.apartment else line0
    some ⟨f.customerName,
      line ++ "\n" ++ f.city ++ ", " ++ f.province ++ "\n"
        ++ f.country ++ ", " ++ f.postalCode⟩
  else none

structure CartItem where
  product : Product
  key : VariantKey
  quantity : Nat

/-- Helper `load_cart_items`: join each cart entry with its product (entries whose
product no longer exists are skipped) and accumulate `price * quantity`. -/
def loadCartItems (db : DB) : Cart → List CartItem × ℚ
  | [] => ([], 0)
  | (k, q) :: rest =>
    let (items, subtotal) := loadCartItems db rest
    match findProduct db k.productId with
    | none => (items, subtotal)
    | some p => (⟨p, k, q⟩ :: items, p.price * q + subtotal)

/-- The creation-time total: `to_money(to_money(subtotal) + to_money(fee))`,
in cents. -/
def computeTotalCents (subtotal fee : ℚ) : ℤ :=
  let s := roundHalfUpCents subtotal
  let f := roundHalfUpCents fee
  roundHalfUpCents ((s : ℚ) / 100 + (f : ℚ) / 100)

/-- SQLite `AUTOINCREMENT`: the id the next inserted order receives. -/
def nextOrderId (db : DB) : Nat :=
  (db.orders.foldl (fun m o => max m o.id) 0) + 1

/-- The per-line loop of `create_paypal_order`: check
`inventory.quantity >= item.quantity` (non-mutating pre-check) and stage the
`order_items` insert with its price snapshot. -/
def buildOrderItems (db : DB) (oid : Nat) : List CartItem → Except VariantKey (List OrderItem)
  | [] => .ok []
  | it :: rest =>
    match findInv db it.key with
    | none => .error it.key
    | some r =>
      if r.quantity < (it.quantity : ℤ) then .error it.key
      else
        match buildOrderItems db oid rest with
        | .error k => .error k
        | .ok tail => .ok (⟨oid, it.key, it.product.name, it.quantity, it.product.price⟩ :: tail)

/-- Outcome of the gateway `POST /v2/checkout/orders` call.  A missing `id`
in the response body is the empty string (`paypal_order.get("id")` is falsy). -/
inductive CreateGw where
  | err (msg : String)
  | ok (orderId : String) (approveUrl : String)
deriving DecidableEq

inductive CreateResult where
  | validationError
  | emptyCart
  | userNotFound
  | stockShort (k : VariantKey)
  | gatewayError
  | invalidResponse
  | ok (localOrderId : Nat) (externalId : String)
deriving DecidableEq

structure CreateOut where
  result : CreateResult
  db : DB
  cart : Cart

/-- Handler `create_paypal_order`: validate shipping and cart, snapshot prices into a
pending order, call the gateway, and either commit the correlated order or
roll the local writes back. -/
def createPaypalOrder (db : DB) (cart : Cart) (uid : Nat) (ship : ShippingInput)
    (fee : ℚ) (gw : CreateGw) : CreateOut :=
  match collectShippingData ship with
  | none => ⟨.validationError, db, cart⟩
  | some sd =>
    let (items, subtotal) := loadCartItems db cart
    if items.isEmpty then ⟨.emptyCart, db, cart⟩
    else
      match findUser db uid with
      | none => ⟨.userNotFound, db, cart⟩
      | some u =>
        let totalCents := computeTotalCents subtotal fee
        let c := Conn.open_ db
        let oid := nextOrderId db
        let pendingOrder : Order :=
          ⟨oid, sd.customerName, u.email, sd.address, "pending", "pending",
            fee, (totalCents : ℚ) / 100⟩
        match buildOrderItems db oid items with
        | .error k => ⟨.stockShort k, c.abort, cart⟩
        | .ok newItems =>
          let c := { c with cur :=
            { c.cur with
                orders := c.cur.orders ++ [pendingOrder],
                orderItems := c.cur.orderItems ++ newItems } }
          match gw with
          | .err _ => ⟨.gatewayError, c.abort, cart⟩
          | .ok extId _approveUrl =>
            if extId = "" then ⟨.invalidResponse, c.abort, cart⟩
            else
              let c := { c with cur :=
                { c.cur with orders := c.cur.orders.map (fun o : Order =>
                    if o.id = oid then
                      { o with paymentStatus := "paypal_order:" ++ extId }
                    else o) } }
              ⟨.ok oid extId, c.commit, cart⟩

/-! ## Payment capture (`capture_paypal_order_for_current_user`,
web/app.py 819-1004)

The gateway's capture response.  Optional JSON string fields are modelled by
`String` with `""` for an absent value, matching the Python code's falsiness
tests (`purchase_units[0].get(...)` returns `None` or the string, and both
`None` and `""` fail an `if field and ...` guard). -/

structure CaptureDetail where
  id : String
  amountValue : String
  amountCurrency : String
deriving DecidableEq

structure PurchaseUnitResp where
  referenceId : String
  captures : List CaptureDetail
deriving DecidableEq

structure CaptureResp where
  status : String
  purchaseUnits : List PurchaseUnitResp
deriving DecidableEq

/-- Outcome of `paypal_request("/v2/checkout/orders/<id>/capture")`:
a `RuntimeError` or a parsed JSON body. -/
inductive GwResult where
  | err (msg : String)
  | ok (resp : CaptureResp)
deriving DecidableEq

/-- web/app.py 886-899: pull `reference_id`, the capture id, the captured
amount and its currency out of the first purchase unit, defaulting to absent. -/
structure CaptureFields where
  referenceId : String
  captureId : String
  amountValue : String
  amountCurrency : String
deriving DecidableEq

def extractCaptureFields (resp : CaptureResp) : CaptureFields :=
  match resp.purchaseUnits with
  | [] => ⟨"", "", "", ""⟩
  | pu :: _ =>
    match pu.captures with
    | [] => ⟨pu.referenceId, "", "", ""⟩
    | cd :: _ => ⟨pu.referenceId, cd.id, cd.amountValue, cd.amountCurrency⟩

inductive CaptureResult where
  | missingParams
  | noUser
  | notFound
  | emailMismatch
  | statusMismatch
  | gatewayError
  | notConfirmed
  | referenceMismatch
  | currencyMismatch
  | amountMismatch
  | stockShort
  | ok
deriving DecidableEq

structure CaptureOut where
  result : CaptureResult
  db : DB
  cart : Cart
  gatewayCalled : Bool
deriving DecidableEq

/-- Step 1 of capture: resolve the order by `local_order_id` when supplied
(`if local_order_id:` — `0`/`None` are both falsy), else by
`payment_status = "paypal_order:<id>" AND customer_email = ?
ORDER BY id DESC LIMIT 1`. -/
def maxById : List Order → Option Order
  | [] => none
  | o :: rest =>
    match maxById rest with
    | none => some o
    | some m => if m.id < o.id then some o else some m

def resolveOrder (db : DB) (pid : String) (lid : Option Nat) (email : String) :
    Option Order :=
  let byId : Option Order :=
    match lid with
    | some i => if i = 0 then none else findOrder db i
    | none => none
  match byId with
  | some o => some o
  | none =>
    maxById (db.orders.filter (fun o =>
      o.paymentStatus = "paypal_order:" ++ pid && o.customerEmail = email))

/-- The pre-decrement stock re-check (web/app.py 945-961): every line's
inventory row exists with sufficient quantity. -/
def checkStock (db : DB) (items : List OrderItem) : Bool :=
  items.all (fun it =>
    match findInv db it.key with
    | none => false
    | some r => (it.quantity : ℤ) ≤ r.quantity)

/-- One iteration of the decrement loop (web/app.py 963-971): re-read the
row and write `quantity - item.quantity` back.  The row exists because the
pre-check ran in the same transaction (this sequential model; the
interleaved behaviour of this read-then-write pair is modelled separately
below). -/
def decrementItem (db : DB) (it : OrderItem) : DB :=
  match findInv db it.key with
  | none => db
  | some r =>
    { db with inventory := db.inventory.map (fun row =>
        if row.key = it.key then { row with quantity := r.quantity - (it.quantity : ℤ) }
        else row) }

/-- web/app.py 972-979: recompute the denormalized `products.stock` as the
sum of the product's inventory rows. -/
def recomputeStock (db : DB) (pid : Nat) : DB :=
  { db with products := db.products.map (fun p =>
      if p.id = pid then { p with stock := sumQty db pid } else p) }

def applyItem (db : DB) (it : OrderItem) : DB :=
  recomputeStock (decrementItem db it) it.key.productId

def applyItems (db : DB) (items : List OrderItem) : DB :=
  items.foldl applyItem db

/-- The committed effect of a successful capture (web/app.py 962-992):
decrement every line, recompute each affected product's stock, mark the
order `confirmed` / `paid:<capture_id or paypal_order_id>`, and append the
Transaction row. -/
def applySuccess (db : DB) (o : Order) (captureId pid : String) : DB :=
  let db1 := applyItems db (itemsFor db o.id)
  let paidTag := "paid:" ++ (if captureId = "" then pid else captureId)
  let db2 := { db1 with orders := db1.orders.map (fun x : Order =>
      if x.id = o.id then { x with status := "confirmed", paymentStatus := paidTag }
      else x) }
  { db2 with transactions := db2.transactions ++ [⟨o.id, o.total⟩] }

/-- Steps 3-8 of capture, after the order resolved and its payment status
matched: parse the response, require `COMPLETED`, verify reference /
currency / amount against the local order, re-check stock, then apply. -/
def captureVerified (db : DB) (cart : Cart) (o : Order) (pid : String)
    (resp : CaptureResp) : CaptureOut :=
  let f := extractCaptureFields resp
  if resp.status ≠ "COMPLETED" then ⟨.notConfirmed, db, cart, true⟩
  else
    let expectedReference := toString o.id
    let expectedText := moneyText (roundHalfUpCents o.total)
    if f.referenceId ≠ "" ∧ f.referenceId ≠ expectedReference then
      ⟨.referenceMismatch, db, cart, true⟩
    else if f.amountCurrency ≠ "" ∧ f.amountCurrency ≠ "EUR" then
      ⟨.currencyMismatch, db, cart, true⟩
    else if f.amountValue ≠ "" ∧ f.amountValue ≠ expectedText then
      ⟨.amountMismatch, db, cart, true⟩
    else if ¬ checkStock db (itemsFor db o.id) then ⟨.stockShort, db, cart, true⟩
    else ⟨.ok, applySuccess db o f.captureId pid, [], true⟩

/-- Handler `capture_paypal_order_for_current_user`.  The `gatewayCalled` flag records
whether the gateway capture endpoint was reached.  Every failure path
closes the connection without a commit, so it returns the incoming `db`. -/
def capture (db : DB) (uid : Nat) (cart : Cart) (pid : String)
    (lid : Option Nat) (gw : GwResult) : CaptureOut :=
  if pid = "" then ⟨.missingParams, db, cart, false⟩
  else
    match findUser db uid with
    | none => ⟨.noUser, db, cart, false⟩
    | some u =>
      match resolveOrder db pid lid u.email with
      | none => ⟨.notFound, db, cart, false⟩
      | some o =>
        if o.customerEmail ≠ u.email then ⟨.emailMismatch, db, cart, false⟩
        else if ("paypal_order:" ++ pid) ≠ o.paymentStatus then
          ⟨.statusMismatch, db, cart, false⟩
        else
          match gw with
          | .err _ => ⟨.gatewayError, db, cart, true⟩
          | .ok resp => captureVerified db cart o pid resp

/-! ## Admin console operations (`elit21/admin/app.py`) -/

/-- Admin `update_inventory` (admin/app.py 904-921): absolute-set upsert of the
variant's quantity, then recompute the product's cached stock. -/
def adminUpdateInventory (db : DB) (k : VariantKey) (q : Nat) : DB :=
  let db1 :=
    match findInv db k with
    | some _ =>
      { db with inventory := db.inventory.map (fun r =>
          if r.key = k then { r with quantity := (q : ℤ) } else r) }
    | none => { db with inventory := db.inventory ++ [⟨k, (q : ℤ)⟩] }
  recomputeStock db1 k.productId

/-- Admin `update_order_status` (admin/app.py 1073-1085): set `orders.status`. -/
def adminUpdateOrderStatus (db : DB) (oid : Nat) (status : String) : DB :=
  { db with orders := db.orders.map (fun o =>
      if o.id = oid then { o with status := status } else o) }

/-- Admin `complete_order` (admin/app.py 1087-1105): set the status to
`completed` AND insert a `transactions` row for the order. -/
def adminCompleteOrder (db : DB) (oid : Nat) : DB :=
  match findOrder db oid with
  | none => db
  | some o =>
    let db1 := { db with orders := db.orders.map (fun x : Order =>
        if x.id = oid then { x with status := "completed" } else x) }
    { db1 with transactions := db1.transactions ++ [⟨oid, o.total⟩] }

/-- Admin dashboard revenue (admin/app.py 602):
`SELECT COALESCE(SUM(total), 0) FROM transactions`. -/
def dashboardRevenue (db : DB) : ℚ :=
  (db.transactions.map (fun t => t.total)).sum

/-! ## Gateway token exchange (`paypal_request`, web/app.py 179-257) -/

inductive PPEnv where
  | sandbox
  | live
deriving DecidableEq

def PPEnv.alternate : PPEnv → PPEnv
  | .sandbox => .live
  | .live => .sandbox

/-- Helper `environment_candidates`: normalize the configured value (anything other
than `sandbox`/`live` means `sandbox`) and append the opposite environment
when `PAYPAL_ENV_AUTO_FALLBACK` allows it. -/
def normalizeEnv (envStr : String) : PPEnv :=
  if envStr = "live" then .live else .sandbox

def environmentCandidates (cfg : PPEnv) (fallback : Bool) : List PPEnv :=
  cfg :: (if fallback then [cfg.alternate] else [])

/-- One environment's response to the token `POST`. -/
inductive AuthResp where
  | token (t : String)
  | httpErr (code : Nat) (errorCode : String)
  | netErr (reason : String)
deriving DecidableEq

inductive AuthOutcome where
  /-- A token was obtained on `env`; `mismatchLogged` is the warning that
  the validated environment differs from the configured one. -/
  | ok (env : PPEnv) (mismatchLogged : Bool)
  | authError (env : PPEnv) (code : Nat) (errorCode : String)
  | networkError (reason : String)
deriving DecidableEq

/-- The candidate loop of `paypal_request` (web/app.py 193-248): a
`401`/`invalid_client` HTTP error moves to the next candidate when one
remains; every other failure is raised immediately. -/
def tokenAttempts (resp : PPEnv → AuthResp) : List PPEnv → Option PPEnv ⊕ AuthOutcome
  | [] => .inl none
  | e :: rest =>
    match resp e with
    | .token _ => .inl (some e)
    | .httpErr code errorCode =>
      if code = 401 ∧ errorCode = "invalid_client" ∧ rest ≠ [] then
        tokenAttempts resp rest
      else .inr (.authError e code errorCode)
    | .netErr reason => .inr (.networkError reason)

/-- The token-exchange phase of `paypal_request`. -/
def paypalAuth (cfg : PPEnv) (fallback : Bool) (resp : PPEnv → AuthResp) :
    AuthOutcome :=
  match tokenAttempts resp (environmentCandidates cfg fallback) with
  | .inl (some chosen) => .ok chosen (chosen ≠ cfg)
  | .inl none => .networkError "unreachable: candidates nonempty"
  | .inr failure => failure

/-! ## The capture decrement under interleaving (web/app.py 945-971)

Each capture request performs, per line: a stock pre-check (`SELECT` and
compare), then a re-read (`SELECT id, quantity`), then an unconditional
write (`UPDATE ... SET quantity = <read value> - qty`).  Each SQL statement
is atomic, but nothing orders the three with respect to another request.
One shared row is modelled; a scheduler interleaves two requests. -/

inductive DecPc where
  | check
  | readRow
  | writeRow (saved : ℤ)
  | done (succeeded : Bool)
deriving DecidableEq

structure DecReq where
  pc : DecPc
  need : ℤ
deriving DecidableEq

/-- Execute the request's next atomic statement against shared quantity `q`. -/
def stepDec (q : ℤ) (r : DecReq) : ℤ × DecReq :=
  match r.pc with
  | .check => if q < r.need then (q, { r with pc := .done false })
              else (q, { r with pc := .readRow })
  | .readRow => (q, { r with pc := .writeRow q })
  | .writeRow saved => (saved - r.need, { r with pc := .done true })
  | .done _ => (q, r)

/-- Run a schedule (`false` steps request A, `true` steps request B). -/
def runSched : List Bool → ℤ → DecReq → DecReq → ℤ × DecReq × DecReq
  | [], q, a, b => (q, a, b)
  | s :: rest, q, a, b =>
    if s then
      let (q', b') := stepDec q b
      runSched rest q' a b'
    else
      let (q', a') := stepDec q a
      runSched rest q' a' b

/-! ## Auxiliary lemmas -/

theorem paypal_order_ne_paid (a b : String) : "paypal_order:" ++ a ≠ "paid:" ++ b := by
  intro h
  have h2 : ("paypal_order:" ++ a).data = ("paid:" ++ b).data := by rw [h]
  rw [String.data_append, String.data_append] at h2
  simp [String.data] at h2

theorem rat_floor_eq_floor (q : ℚ) : Rat.floor q = ⌊q⌋ := by
  rw [Rat.floor_def' q, Rat.floor_def]

theorem roundHalfUpCents_exact (n : ℤ) : roundHalfUpCents ((n : ℚ) / 100) = n := by
  unfold roundHalfUpCents
  have h100 : ((n : ℚ) / 100) * 100 = (n : ℚ) := by field_simp
  rw [h100, rat_floor_eq_floor]
  rw [show ((n : ℚ) + 1 / 2) = ((n : ℤ) : ℚ) + 1 / 2 by norm_num]
  rw [Int.floor_int_add]
  split
  · norm_num
  · rw [rat_floor_eq_floor,
      show (-(n : ℚ) + 1 / 2) = ((-n : ℤ) : ℚ) + 1 / 2 by push_cast; ring,
      Int.floor_int_add]
    norm_num

theorem isCents_add {a b : ℚ} (ha : isCents a) (hb : isCents b) : isCents (a + b) := by
  obtain ⟨m, rfl⟩ := ha
  obtain ⟨n, rfl⟩ := hb
  exact ⟨m + n, by push_cast; ring⟩

theorem isCents_mul_nat {a : ℚ} (ha : isCents a) (q : ℕ) : isCents (a * q) := by
  obtain ⟨m, rfl⟩ := ha
  exact ⟨m * q, by push_cast; ring⟩

theorem isCents_zero : isCents 0 := ⟨0, by norm_num⟩

/-- Preservation facts for the success mutation of capture. -/
theorem decrementItem_users (db : DB) (it : OrderItem) :
    (decrementItem db it).users = db.users := by
  unfold decrementItem
  split <;> rfl

theorem decrementItem_orders (db : DB) (it : OrderItem) :
    (decrementItem db it).orders = db.orders := by
  unfold decrementItem
  split <;> rfl

theorem decrementItem_transactions (db : DB) (it : OrderItem) :
    (decrementItem db it).transactions = db.transactions := by
  unfold decrementItem
  split <;> rfl

theorem decrementItem_products (db : DB) (it : OrderItem) :
    (decrementItem db it).products = db.products := by
  unfold decrementItem
  split <;> rfl

theorem applyItem_users (db : DB) (it : OrderItem) :
    (applyItem db it).users = db.users := by
  unfold applyItem recomputeStock
  simp [decrementItem_users]

theorem applyItem_orders (db : DB) (it : OrderItem) :
    (applyItem db it).orders = db.orders := by
  unfold applyItem recomputeStock
  simp [decrementItem_orders]

theorem applyItem_transactions (db : DB) (it : OrderItem) :
    (applyItem db it).transactions = db.transactions := by
  unfold applyItem recomputeStock
  simp [decrementItem_transactions]

theorem applyItems_users (db : DB) (items : List OrderItem) :
    (applyItems db items).users = db.users := by
  induction items generalizing db with
  | nil => rfl
  | cons it rest ih =>
    simp only [applyItems, List.foldl_cons] at ih ⊢
    rw [ih, applyItem_users]

theorem applyItems_orders (db : DB) (items : List OrderItem) :
    (applyItems db items).orders = db.orders := by
  induction items generalizing db with
  | nil => rfl
  | cons it rest ih =>
    simp only [applyItems, List.foldl_cons] at ih ⊢
    rw [ih, applyItem_orders]

theorem applyItems_transactions (db : DB) (items : List OrderItem) :
    (applyItems db items).transactions = db.transactions := by
  induction items generalizing db with
  | nil => rfl
  | cons it rest ih =>
    simp only [applyItems, List.foldl_cons] at ih ⊢
    rw [ih, applyItem_transactions]

theorem applySuccess_users (db : DB) (o : Order) (cid pid : String) :
    (applySuccess db o cid pid).users = db.users := by
  unfold applySuccess
  simp [applyItems_users]

theorem applySuccess_transactions (db : DB) (o : Order) (cid pid : String) :
    (applySuccess db o cid pid).transactions = db.transactions ++ [⟨o.id, o.total⟩] := by
  unfold applySuccess
  simp [applyItems_transactions]

theorem applySuccess_orders (db : DB) (o : Order) (cid pid : String) :
    (applySuccess db o cid pid).orders = db.orders.map (fun x : Order =>
      if x.id = o.id then
        { x with status := "confirmed",
                 paymentStatus := "paid:" ++ (if cid = "" then pid else cid) }
      else x) := by
  unfold applySuccess
  simp [applyItems_orders]

/-- Lemma: `find?` over a list mapped by an id-preserving pointwise update. -/
theorem find_map_update (l : List Order) (i : Nat) (g : Order → Order)
    (hg : ∀ o, (g o).id = o.id) :
    (l.map (fun o => if o.id = i then g o else o)).find? (fun o => o.id = i)
      = (l.find? (fun o => o.id = i)).map (fun o => if o.id = i then g o else o) := by
  induction l with
  | nil => rfl
  | cons a l ih =>
    by_cases h : a.id = i
    · simp [List.find?, h, hg]
    · simp [List.find?, h, ih]

/-- Inversion: a successful capture pins down every guard on the way and
the committed state. -/
theorem capture_ok_elim (db : DB) (uid : Nat) (cart : Cart) (pid : String)
    (lid : Option Nat) (gw : GwResult)
    (h : (capture db uid cart pid lid gw).result = .ok) :
    pid ≠ "" ∧ ∃ u o resp,
      findUser db uid = some u ∧
      resolveOrder db pid lid u.email = some o ∧
      o.customerEmail = u.email ∧
      o.paymentStatus = "paypal_order:" ++ pid ∧
      gw = .ok resp ∧
      capture db uid cart pid lid gw =
        ⟨.ok, applySuccess db o (extractCaptureFields resp).captureId pid, [], true⟩ := by
  by_cases hpid : pid = ""
  · simp [capture, hpid] at h
  · rcases hfu : findUser db uid with _ | u
    · simp [capture, hpid, hfu] at h
    · rcases hro : resolveOrder db pid lid u.email with _ | o
      · simp [capture, hpid, hfu, hro] at h
      · by_cases hem : o.customerEmail = u.email
        · by_cases hst : ("paypal_order:" ++ pid) = o.paymentStatus
          · rcases hgw : gw with msg | resp
            · rw [hgw] at h; simp [capture, hpid, hfu, hro, hem, hst] at h
            · rw [hgw] at h
              by_cases hs : resp.status = "COMPLETED"
              · by_cases href : (extractCaptureFields resp).referenceId ≠ "" ∧
                    (extractCaptureFields resp).referenceId ≠ toString o.id
                · simp [capture, captureVerified, hpid, hfu, hro, hem, hst, hs, href] at h
                · by_cases hcur : (extractCaptureFields resp).amountCurrency ≠ "" ∧
                      (extractCaptureFields resp).amountCurrency ≠ "EUR"
                  · simp [capture, captureVerified, hpid, hfu, hro, hem, hst, hs,
                      href, hcur] at h
                  · by_cases hamt : (extractCaptureFields resp).amountValue ≠ "" ∧
                        (extractCaptureFields resp).amountValue
                          ≠ moneyText (roundHalfUpCents o.total)
                    · simp [capture, captureVerified, hpid, hfu, hro, hem, hst, hs,
                        href, hcur, hamt] at h
                    · by_cases hstock : checkStock db (itemsFor db o.id) = true
                      · refine ⟨hpid, u, o, resp, rfl, hro, hem, hst.symm, rfl, ?_⟩
                        simp [capture, captureVerified, hpid, hfu, hro, hem, hst, hs,
                          href, hcur, hamt, hstock]
                      · simp [capture, captureVerified, hpid, hfu, hro, hem, hst, hs,
                          href, hcur, hamt, hstock] at h
              · simp [capture, captureVerified, hpid, hfu, hro, hem, hst, hs] at h
          · simp [capture, hpid, hfu, hro, hem, hst] at h
        · simp [capture, hpid, hfu, hro, hem] at h

theorem resolveOrder_byId (db : DB) (pid : String) (i : Nat) (e : String)
    (o : Order) (hi : i ≠ 0) (hid : findOrder db i = some o) :
    resolveOrder db pid (some i) e = some o := by
  simp [resolveOrder, hi, hid]

theorem findOrder_id (db : DB) (i : Nat) (o : Order) (h : findOrder db i = some o) :
    o.id = i := by
  unfold findOrder at h
  simpa using List.find?_some h

theorem findOrder_applySuccess (db : DB) (o : Order) (cid pid : String) :
    findOrder (applySuccess db o cid pid) o.id
      = (findOrder db o.id).map (fun x : Order =>
          if x.id = o.id then
            { x with status := "confirmed",
                     paymentStatus := "paid:" ++ (if cid = "" then pid else cid) }
          else x) := by
  unfold findOrder
  rw [applySuccess_orders]
  exact find_map_update _ _ _ (fun x => rfl)

theorem txCount_applySuccess (db : DB) (o : Order) (cid pid : String) :
    txCount (applySuccess db o cid pid) o.id = txCount db o.id + 1 := by
  unfold txCount
  rw [applySuccess_transactions]
  simp [List.filter_append]

/-! ## Claim theorems -/

/-- C2: capturing the same external order id twice (the browser-return flow
supplies the local order id on both calls) applies the inventory decrement
and the Transaction insertion exactly once: the first successful capture
commits exactly `applySuccess` (each line decremented once, exactly one new
Transaction row, paymentStatus moved to `paid:<captureId>`), and any second
capture of that id is rejected as inconsistent state with no mutation at
all. -/
theorem C2_capture_idempotent (db : DB) (uid : Nat) (cart : Cart) (pid : String)
    (i : Nat) (gw : GwResult) (o0 : Order) (hi : i ≠ 0)
    (hid : findOrder db i = some o0)
    (h : (capture db uid cart pid (some i) gw).result = .ok) :
    ∃ capId,
      (capture db uid cart pid (some i) gw).db = applySuccess db o0 capId pid ∧
      txCount (capture db uid cart pid (some i) gw).db i = txCount db i + 1 ∧
      (findOrder (capture db uid cart pid (some i) gw).db i).map Order.paymentStatus
        = some ("paid:" ++ (if capId = "" then pid else capId)) ∧
      ∀ cart2 gw2,
        capture (capture db uid cart pid (some i) gw).db uid cart2 pid (some i) gw2
          = ⟨.statusMismatch, (capture db uid cart pid (some i) gw).db, cart2, false⟩ := by
  obtain ⟨hpid, u, o, resp, hfu, hro, hem, hst, hgw, heq⟩ :=
    capture_ok_elim db uid cart pid (some i) gw h
  have hro0 : resolveOrder db pid (some i) u.email = some o0 :=
    resolveOrder_byId db pid i u.email o0 hi hid
  rw [hro] at hro0
  obtain rfl : o = o0 := Option.some.inj hro0
  have hoid : o.id = i := findOrder_id db i o hid
  set cid := (extractCaptureFields resp).captureId with hcid
  refine ⟨cid, ?_, ?_, ?_, ?_⟩
  · rw [heq]
  · rw [heq]
    show txCount (applySuccess db o cid pid) i = txCount db i + 1
    rw [← hoid]
    exact txCount_applySuccess db o cid pid
  · rw [heq]
    show (findOrder (applySuccess db o cid pid) i).map Order.paymentStatus = _
    rw [← hoid, findOrder_applySuccess, hoid, hid]
    simp [hoid]
  · intro cart2 gw2
    rw [heq]
    show capture (applySuccess db o cid pid) uid cart2 pid (some i) gw2 = _
    have hfu2 : findUser (applySuccess db o cid pid) uid = some u := by
      unfold findUser
      rw [applySuccess_users]
      exact hfu
    have hfo2 : findOrder (applySuccess db o cid pid) i
        = some { o with status := "confirmed",
                        paymentStatus := "paid:" ++ (if cid = "" then pid else cid) } := by
      rw [← hoid, findOrder_applySuccess, hoid, hid]
      simp [hoid]
    have hro2 : resolveOrder (applySuccess db o cid pid) pid (some i) u.email
        = some { o with status := "confirmed",
                        paymentStatus := "paid:" ++ (if cid = "" then pid else cid) } :=
      resolveOrder_byId _ pid i u.email _ hi hfo2
    have hne : ("paypal_order:" ++ pid)
        ≠ ("paid:" ++ (if cid = "" then pid else cid)) :=
      paypal_order_ne_paid _ _
    simp [capture, hpid, hfu2, hro2, hem, hne]

/-- Concrete state for C2's witness: user 7 owns order 1, correlated with
external id `EXT`; the gateway confirms the capture with no optional fields. -/
def keyW2 : VariantKey := ⟨5, "Red", "M"⟩

def ordW2 : Order := ⟨1, "N", "a@b", "addr", "pending", "paypal_order:EXT", 10, 50⟩

def dbW2 : DB :=
  ⟨[⟨7, "a@b"⟩], [⟨5, "Shirt", 20, "active", 3⟩], [⟨keyW2, 3⟩], [ordW2],
    [⟨1, keyW2, "Shirt", 2, 20⟩], []⟩

def respW2 : CaptureResp := ⟨"COMPLETED", []⟩

theorem C2_capture_idempotent_witness :
    (1 : Nat) ≠ 0 ∧ findOrder dbW2 1 = some ordW2 ∧
    (capture dbW2 7 [(keyW2, 2)] "EXT" (some 1) (.ok respW2)).result = .ok ∧
    (∃ capId,
      (capture dbW2 7 [(keyW2, 2)] "EXT" (some 1) (.ok respW2)).db
          = applySuccess dbW2 ordW2 capId "EXT" ∧
      txCount (capture dbW2 7 [(keyW2, 2)] "EXT" (some 1) (.ok respW2)).db 1
          = txCount dbW2 1 + 1 ∧
      (findOrder (capture dbW2 7 [(keyW2, 2)] "EXT" (some 1) (.ok respW2)).db 1).map
          Order.paymentStatus
          = some ("paid:" ++ (if capId = "" then "EXT" else capId)) ∧
      ∀ cart2 gw2,
        capture (capture dbW2 7 [(keyW2, 2)] "EXT" (some 1) (.ok respW2)).db 7
            cart2 "EXT" (some 1) gw2
          = ⟨.statusMismatch,
              (capture dbW2 7 [(keyW2, 2)] "EXT" (some 1) (.ok respW2)).db,
              cart2, false⟩) :=
  ⟨by decide, by decide, by decide,
    C2_capture_idempotent dbW2 7 [(keyW2, 2)] "EXT" 1 (.ok respW2) ordW2
      (by decide) (by decide) (by decide)⟩

/-- C1 is violated by the code: the admin's `complete_order` handler
(admin/app.py 1087-1105) inserts a second `transactions` row for an order
that is already `paid:` and already has the Transaction row written by
capture, so "marking an order completed after a successful capture" raises
the order's Transaction count from one to two (and the dashboard revenue
`SUM(total)` is double-counted). -/
def ordC1 : Order := ⟨1, "N", "a@b", "addr", "confirmed", "paid:CAP1", 10, 50⟩

def dbC1 : DB := ⟨[⟨7, "a@b"⟩], [], [], [ordC1], [], [⟨1, 50⟩]⟩

theorem C1_admin_complete_inserts_second_transaction :
    (findOrder dbC1 1).map Order.paymentStatus = some "paid:CAP1" ∧
    txCount dbC1 1 = 1 ∧
    txCount (adminCompleteOrder dbC1 1) 1 = 2 := by
  decide

/-- C3 is violated by the code: the decrement is a `SELECT` followed by an
unconditional `UPDATE quantity = <read> - qty` (web/app.py 963-971), not a
single atomic conditional update.  Against a row with quantity Q = 1, two
concurrent decrements of 1 under the schedule check-A, check-B, read-A,
write-A, read-B, write-B both succeed (the claim requires exactly
min(2,1) = 1 success) and leave the quantity at -1 (the claim requires
max(1-2,0) = 0, never negative). -/
theorem C3_decrement_read_then_write_races :
    (runSched [false, true, false, false, true, true] 1 ⟨.check, 1⟩ ⟨.check, 1⟩).1 = -1 ∧
    (runSched [false, true, false, false, true, true] 1 ⟨.check, 1⟩ ⟨.check, 1⟩).2.1.pc
        = .done true ∧
    (runSched [false, true, false, false, true, true] 1 ⟨.check, 1⟩ ⟨.check, 1⟩).2.2.pc
        = .done true := by
  decide

/-- C10: when the resolved order belongs to a different customer than the
acting session user (in particular when a valid `local_order_id` of another
customer is supplied), capture rejects with the authorization error before
any gateway call (`gatewayCalled = false`) and with no mutation of the
store or the cart. -/
theorem C10_capture_cross_customer_rejected (db : DB) (uid : Nat) (cart : Cart)
    (pid : String) (i : Nat) (gw : GwResult) (u : User) (o : Order)
    (hpid : pid ≠ "") (hu : findUser db uid = some u) (hi : i ≠ 0)
    (ho : findOrder db i = some o) (hne : o.customerEmail ≠ u.email) :
    capture db uid cart pid (some i) gw = ⟨.emailMismatch, db, cart, false⟩ := by
  have hro := resolveOrder_byId db pid i u.email o hi ho
  simp [capture, hpid, hu, hro, hne]

def ordC10 : Order := ⟨1, "N", "other@c", "addr", "pending", "paypal_order:EXT", 10, 50⟩

def dbC10 : DB := ⟨[⟨7, "a@b"⟩], [], [], [ordC10], [], []⟩

theorem C10_capture_cross_customer_rejected_witness :
    "EXT" ≠ "" ∧ findUser dbC10 7 = some ⟨7, "a@b"⟩ ∧ (1 : Nat) ≠ 0 ∧
    findOrder dbC10 1 = some ordC10 ∧ ordC10.customerEmail ≠ "a@b" ∧
    capture dbC10 7 [] "EXT" (some 1) (.err "down")
      = ⟨.emailMismatch, dbC10, [], false⟩ :=
  ⟨by decide, by decide, by decide, by decide, by decide,
    C10_capture_cross_customer_rejected dbC10 7 [] "EXT" 1 (.err "down")
      ⟨7, "a@b"⟩ ordC10 (by decide) (by decide) (by decide) (by decide) (by decide)⟩

/-- C5: when the gateway `createOrder` call fails (network error / gateway
rejection raised as a `RuntimeError`) or returns a body without an id, the
handler rolls the transaction back: the store it returns is exactly the
store from before `create_paypal_order` started — the pending order row and
its order-item rows do not survive — and the cart is untouched. -/
theorem C5_create_order_rollback (db : DB) (cart : Cart) (uid : Nat)
    (ship : ShippingInput) (fee : ℚ) (gw : CreateGw)
    (hgw : (∃ m, gw = CreateGw.err m) ∨ ∃ url, gw = CreateGw.ok "" url) :
    (createPaypalOrder db cart uid ship fee gw).db = db ∧
    (createPaypalOrder db cart uid ship fee gw).cart = cart := by
  unfold createPaypalOrder
  rcases hgw with ⟨m, rfl⟩ | ⟨url, rfl⟩ <;>
    repeat' first
      | exact ⟨rfl, rfl⟩
      | split
      | simp_all [Conn.open_, Conn.abort]

def keyC5 : VariantKey := ⟨5, "Red", "M"⟩

def shipC5 : ShippingInput := ⟨"N", "1", "Main", "", "City", "Prov", "Ctry", "12345"⟩

def dbC5 : DB :=
  ⟨[⟨7, "a@b"⟩], [⟨5, "Shirt", 20, "active", 3⟩], [⟨keyC5, 3⟩], [], [], []⟩

/-- The same input passes every local check (a successful gateway call
creates order 1), so the failing runs really do reach the gateway after
staging the pending order — and still leave the store untouched. -/
theorem C5_create_order_rollback_witness :
    (createPaypalOrder dbC5 [(keyC5, 2)] 7 shipC5 10 (.err "timeout")).db = dbC5 ∧
    (createPaypalOrder dbC5 [(keyC5, 2)] 7 shipC5 10 (.err "timeout")).cart
        = [(keyC5, 2)] ∧
    (createPaypalOrder dbC5 [(keyC5, 2)] 7 shipC5 10 (.ok "" "u")).db = dbC5 ∧
    (createPaypalOrder dbC5 [(keyC5, 2)] 7 shipC5 10 (.ok "EXT1" "u")).result
        = .ok 1 "EXT1" :=
  ⟨(C5_create_order_rollback dbC5 [(keyC5, 2)] 7 shipC5 10 (.err "timeout")
      (Or.inl ⟨"timeout", rfl⟩)).1,
   (C5_create_order_rollback dbC5 [(keyC5, 2)] 7 shipC5 10 (.err "timeout")
      (Or.inl ⟨"timeout", rfl⟩)).2,
   (C5_create_order_rollback dbC5 [(keyC5, 2)] 7 shipC5 10 (.ok "" "u")
      (Or.inr ⟨"u", rfl⟩)).1,
   by decide⟩

/-- C4: once an order is resolved and its payment status matches, a
`COMPLETED` capture response succeeds only if each reported field — the
reference id, the currency, the captured amount (compared against the
frozen total rendered by the same two-place half-up rounding as creation) —
matches the local order whenever the gateway supplied it; any mismatch
fails as inconsistent state with the store and cart untouched. -/
theorem C4_capture_verifies_reference_currency_amount (db : DB) (uid : Nat)
    (cart : Cart) (pid : String) (lid : Option Nat) (resp : CaptureResp)
    (u : User) (o : Order)
    (hpid : pid ≠ "") (hu : findUser db uid = some u)
    (hro : resolveOrder db pid lid u.email = some o)
    (hem : o.customerEmail = u.email)
    (hst : o.paymentStatus = "paypal_order:" ++ pid)
    (hs : resp.status = "COMPLETED") :
    ((extractCaptureFields resp).referenceId ≠ "" ∧
        (extractCaptureFields resp).referenceId ≠ toString o.id →
      capture db uid cart pid lid (.ok resp) = ⟨.referenceMismatch, db, cart, true⟩) ∧
    (((extractCaptureFields resp).referenceId = "" ∨
        (extractCaptureFields resp).referenceId = toString o.id) →
      (extractCaptureFields resp).amountCurrency ≠ "" ∧
        (extractCaptureFields resp).amountCurrency ≠ "EUR" →
      capture db uid cart pid lid (.ok resp) = ⟨.currencyMismatch, db, cart, true⟩) ∧
    (((extractCaptureFields resp).referenceId = "" ∨
        (extractCaptureFields resp).referenceId = toString o.id) →
      ((extractCaptureFields resp).amountCurrency = "" ∨
        (extractCaptureFields resp).amountCurrency = "EUR") →
      (extractCaptureFields resp).amountValue ≠ "" ∧
        (extractCaptureFields resp).amountValue
          ≠ moneyText (roundHalfUpCents o.total) →
      capture db uid cart pid lid (.ok resp) = ⟨.amountMismatch, db, cart, true⟩) ∧
    ((capture db uid cart pid lid (.ok resp)).result = .ok →
      ((extractCaptureFields resp).referenceId ≠ "" →
          (extractCaptureFields resp).referenceId = toString o.id) ∧
      ((extractCaptureFields resp).amountCurrency ≠ "" →
          (extractCaptureFields resp).amountCurrency = "EUR") ∧
      ((extractCaptureFields resp).amountValue ≠ "" →
          (extractCaptureFields resp).amountValue
            = moneyText (roundHalfUpCents o.total))) := by
  refine ⟨?_, ?_, ?_, ?_⟩
  · intro href
    simp [capture, captureVerified, hpid, hu, hro, hem, hst, hs, href.1, href.2]
  · intro hrefok hcur
    have hrefneg : ¬((extractCaptureFields resp).referenceId ≠ "" ∧
        (extractCaptureFields resp).referenceId ≠ toString o.id) := by
      rcases hrefok with h1 | h1 <;> simp [h1]
    simp [capture, captureVerified, hpid, hu, hro, hem, hst, hs, hrefneg,
      hcur.1, hcur.2]
  · intro hrefok hcurok hamt
    have hrefneg : ¬((extractCaptureFields resp).referenceId ≠ "" ∧
        (extractCaptureFields resp).referenceId ≠ toString o.id) := by
      rcases hrefok with h1 | h1 <;> simp [h1]
    have hcurneg : ¬((extractCaptureFields resp).amountCurrency ≠ "" ∧
        (extractCaptureFields resp).amountCurrency ≠ "EUR") := by
      rcases hcurok with h1 | h1 <;> simp [h1]
    simp [capture, captureVerified, hpid, hu, hro, hem, hst, hs, hrefneg,
      hcurneg, hamt.1, hamt.2]
  · intro hok
    by_cases href : (extractCaptureFields resp).referenceId ≠ "" ∧
        (extractCaptureFields resp).referenceId ≠ toString o.id
    · simp [capture, captureVerified, hpid, hu, hro, hem, hst, hs,
        href.1, href.2] at hok
    · by_cases hcur : (extractCaptureFields resp).amountCurrency ≠ "" ∧
          (extractCaptureFields resp).amountCurrency ≠ "EUR"
      · simp [capture, captureVerified, hpid, hu, hro, hem, hst, hs, href,
          hcur.1, hcur.2] at hok
      · by_cases hamt : (extractCaptureFields resp).amountValue ≠ "" ∧
            (extractCaptureFields resp).amountValue
              ≠ moneyText (roundHalfUpCents o.total)
        · simp [capture, captureVerified, hpid, hu, hro, hem, hst, hs, href,
            hcur, hamt.1, hamt.2] at hok
        · refine ⟨fun hA => ?_, fun hA => ?_, fun hA => ?_⟩
          · rcases not_and_or.mp href with h1 | h1
            · exact absurd hA h1
            · exact not_not.mp h1
          · rcases not_and_or.mp hcur with h1 | h1
            · exact absurd hA h1
            · exact not_not.mp h1
          · rcases not_and_or.mp hamt with h1 | h1
            · exact absurd hA h1
            · exact not_not.mp h1

def ordC4 : Order := ⟨1, "N", "a@b", "addr", "pending", "paypal_order:EXT", 10, 50⟩

def dbC4 : DB := ⟨[⟨7, "a@b"⟩], [], [], [ordC4], [], []⟩

/-- A `COMPLETED` response whose reference id is `"2"` against local order 1. -/
def respC4 : CaptureResp := ⟨"COMPLETED", [⟨"2", []⟩]⟩

theorem C4_capture_verifies_reference_currency_amount_witness :
    "EXT" ≠ "" ∧ findUser dbC4 7 = some ⟨7, "a@b"⟩ ∧
    resolveOrder dbC4 "EXT" (some 1) "a@b" = some ordC4 ∧
    ordC4.customerEmail = "a@b" ∧
    ordC4.paymentStatus = "paypal_order:" ++ "EXT" ∧
    respC4.status = "COMPLETED" ∧
    ((extractCaptureFields respC4).referenceId ≠ "" ∧
      (extractCaptureFields respC4).referenceId ≠ toString ordC4.id) ∧
    capture dbC4 7 [] "EXT" (some 1) (.ok respC4)
      = ⟨.referenceMismatch, dbC4, [], true⟩ :=
  ⟨by decide, by decide, by decide, by decide, by decide, by decide, by decide,
    (C4_capture_verifies_reference_currency_amount dbC4 7 [] "EXT" (some 1) respC4
        ⟨7, "a@b"⟩ ordC4 (by decide) (by decide) (by decide) (by decide)
        (by decide) (by decide)).1 (by decide)⟩

/-! ## C6: money pipeline -/

theorem subtotal_isCents (db : DB) (hp : ∀ p ∈ db.products, isCents p.price) :
    ∀ cart : Cart, isCents (loadCartItems db cart).2 := by
  intro cart
  induction cart with
  | nil => exact isCents_zero
  | cons e rest ih =>
    obtain ⟨k, q⟩ := e
    rcases hrest : loadCartItems db rest with ⟨items, subtotal⟩
    rw [hrest] at ih
    rcases hfp : findProduct db k.productId with _ | p
    · simpa [loadCartItems, hfp, hrest] using ih
    · have hmem : p ∈ db.products := List.mem_of_find?_eq_some hfp
      simpa [loadCartItems, hfp, hrest] using
        isCents_add (isCents_mul_nat (hp p hmem) q) ih

/-- C6: for money-valued prices and shipping fee (exact two-decimal-place
amounts), the creation-time total — computed by the code as
`to_money(to_money(subtotal) + to_money(fee))` — equals the single half-up
rounding `round(subtotal + fee, 2)` of the claim, where
`subtotal = Σ unitPrice * qty` is what `load_cart_items` accumulates. -/
theorem C6_total_is_rounded_subtotal_plus_fee (db : DB) (cart : Cart) (fee : ℚ)
    (hp : ∀ p ∈ db.products, isCents p.price) (hf : isCents fee) :
    computeTotalCents (loadCartItems db cart).2 fee
      = roundHalfUpCents ((loadCartItems db cart).2 + fee) := by
  obtain ⟨a, ha⟩ := subtotal_isCents db hp cart
  obtain ⟨b, hb⟩ := hf
  rw [ha, hb]
  unfold computeTotalCents
  rw [roundHalfUpCents_exact a, roundHalfUpCents_exact b]

def dbC6 : DB := ⟨[], [⟨5, "Tee", (1999 : ℚ) / 100, "active", 5⟩], [], [], [], []⟩

def cartC6 : Cart := [(⟨5, "Red", "M"⟩, 2)]

/-- The claim's scenario: 2 units at 19.99 with shipping fee 9.99 give
subtotal 39.98 and total 49.97. -/
theorem C6_total_is_rounded_subtotal_plus_fee_witness :
    (∀ p ∈ dbC6.products, isCents p.price) ∧ isCents ((999 : ℚ) / 100) ∧
    (loadCartItems dbC6 cartC6).2 = (3998 : ℚ) / 100 ∧
    computeTotalCents (loadCartItems dbC6 cartC6).2 ((999 : ℚ) / 100)
      = roundHalfUpCents ((loadCartItems dbC6 cartC6).2 + (999 : ℚ) / 100) ∧
    computeTotalCents (loadCartItems dbC6 cartC6).2 ((999 : ℚ) / 100) = 4997 := by
  have hp : ∀ p ∈ dbC6.products, isCents p.price := by
    intro p hp
    simp [dbC6] at hp
    subst hp
    exact ⟨1999, by norm_num⟩
  have hf : isCents ((999 : ℚ) / 100) := ⟨999, by norm_num⟩
  have hsub : (loadCartItems dbC6 cartC6).2 = (3998 : ℚ) / 100 := by
    norm_num [loadCartItems, findProduct, dbC6, cartC6, List.find?]
  have happ := C6_total_is_rounded_subtotal_plus_fee dbC6 cartC6 ((999 : ℚ) / 100) hp hf
  refine ⟨hp, hf, hsub, happ, ?_⟩
  rw [happ, hsub,
    show (3998 : ℚ) / 100 + 999 / 100 = ((4997 : ℤ) : ℚ) / 100 by norm_num,
    roundHalfUpCents_exact]


/-! ## C7: cart `setQuantity` -/

def keyC7 : VariantKey := ⟨5, "Red", "M"⟩

def dbC7 : DB := ⟨[], [], [⟨keyC7, 5⟩], [], [], []⟩

/-- C7 as stated is false: for an entry present in the cart and the
quantity input `-1` (n = -1 ≤ 0), the route rejects the non-digit string as
an invalid quantity and leaves the entry in the cart instead of removing
it — `"-1".isdigit()` is false, so the `quantity <= 0` removal branch is
unreachable for negative n. -/
theorem C7_negative_quantity_not_removed :
    updateCartItem dbC7 [(keyC7, 1)] "-1" (some keyC7)
      = (.invalidQuantity, [(keyC7, 1)]) ∧
    ((updateCartItem dbC7 [(keyC7, 1)] "-1" (some keyC7)).2.any
        (fun e => e.1 = keyC7)) = true := by
  decide

/-- C7 amended: `setQuantity` with the digit input `0` (the only
representable n ≤ 0) removes the entry; a non-digit quantity string — in
particular any negative number — is rejected as invalid with the cart
unchanged; a quantity above the variant's available stock (or with no
inventory row) fails with insufficient stock and leaves the cart exactly
unchanged. -/
theorem C7_set_quantity_amended (db : DB) (cart : Cart) (k : VariantKey)
    (qs : String) :
    (pyIsDigit qs = true → digitsToNat qs = 0 →
      updateCartItem db cart qs (some k) = (.ok, cart.filter (fun e => e.1 ≠ k))) ∧
    (pyIsDigit qs = false →
      updateCartItem db cart qs (some k) = (.invalidQuantity, cart)) ∧
    (pyIsDigit qs = true → 0 < digitsToNat qs → findInv db k = none →
      updateCartItem db cart qs (some k) = (.insufficientStock, cart)) ∧
    (∀ r : InvRow, pyIsDigit qs = true → 0 < digitsToNat qs →
      findInv db k = some r → r.quantity < ((digitsToNat qs : Nat) : ℤ) →
      updateCartItem db cart qs (some k) = (.insufficientStock, cart)) := by
  refine ⟨?_, ?_, ?_, ?_⟩
  · intro h hz
    simp [updateCartItem, h, hz]
  · intro h
    simp [updateCartItem, h]
  · intro h hpos hfi
    have hnz : ¬(digitsToNat qs ≤ 0) := by omega
    simp [updateCartItem, h, hnz, hfi]
  · intro r h hpos hfi hlt
    have hnz : ¬(digitsToNat qs ≤ 0) := by omega
    simp [updateCartItem, h, hnz, hfi, hlt]

theorem C7_set_quantity_amended_witness :
    pyIsDigit "0" = true ∧ digitsToNat "0" = 0 ∧
    updateCartItem dbC7 [(keyC7, 1)] "0" (some keyC7)
      = (.ok, ([(keyC7, 1)] : Cart).filter (fun e => e.1 ≠ keyC7)) ∧
    updateCartItem dbC7 [(keyC7, 1)] "0" (some keyC7) = (.ok, ([] : Cart)) ∧
    updateCartItem dbC7 [(keyC7, 1)] "9" (some keyC7)
      = (.insufficientStock, [(keyC7, 1)]) :=
  ⟨by decide, by decide,
    (C7_set_quantity_amended dbC7 [(keyC7, 1)] keyC7 "0").1 (by decide) (by decide),
    by decide,
    (C7_set_quantity_amended dbC7 [(keyC7, 1)] keyC7 "9").2.2.2 ⟨keyC7, 5⟩
      (by decide) (by decide) (by decide) (by decide)⟩

/-! ## C8: token-exchange environment fallback -/

theorem alternate_ne (e : PPEnv) : e.alternate ≠ e := by
  cases e <;> decide

def respC8space : PPEnv → AuthResp := fun e =>
  match e with
  | .sandbox => .httpErr 401 "invalid client"
  | .live => .token "t"

def respC8undersc : PPEnv → AuthResp := fun e =>
  match e with
  | .sandbox => .httpErr 401 "invalid_client"
  | .live => .token "t"

/-- C8 as stated is false: the retry trigger is the error code
`"invalid_client"` (underscore), not `"invalid client"`.  With the fallback
enabled and credentials that validate on the opposite environment, a 401
whose error code is literally `"invalid client"` propagates with no
environment retry, while the identical response carrying `"invalid_client"`
triggers the single retry and succeeds on the opposite environment. -/
theorem C8_trigger_is_underscore_code :
    paypalAuth .sandbox true respC8space = .authError .sandbox 401 "invalid client" ∧
    paypalAuth .sandbox true respC8undersc = .ok .live true := by
  decide

/-- C8 amended: the client retries exactly once against the opposite
environment exactly when the configured environment answers an HTTP 401
auth rejection with error code `"invalid_client"` and the fallback toggle
allows it, logging a mismatch warning when the environment that validated
differs from the configured one; a network error, any other auth failure,
or a disabled fallback propagates immediately with no environment retry. -/
theorem C8_env_fallback_amended (cfg : PPEnv) (fallback : Bool)
    (resp : PPEnv → AuthResp) :
    (∀ t, resp cfg = .token t → paypalAuth cfg fallback resp = .ok cfg false) ∧
    (∀ t, resp cfg = .httpErr 401 "invalid_client" → fallback = true →
      resp cfg.alternate = .token t →
      paypalAuth cfg fallback resp = .ok cfg.alternate true) ∧
    (∀ c ec, resp cfg = .httpErr 401 "invalid_client" → fallback = true →
      resp cfg.alternate = .httpErr c ec →
      paypalAuth cfg fallback resp = .authError cfg.alternate c ec) ∧
    (∀ r, resp cfg = .httpErr 401 "invalid_client" → fallback = true →
      resp cfg.alternate = .netErr r →
      paypalAuth cfg fallback resp = .networkError r) ∧
    (∀ r, resp cfg = .netErr r →
      paypalAuth cfg fallback resp = .networkError r) ∧
    (∀ c ec, resp cfg = .httpErr c ec → ¬(c = 401 ∧ ec = "invalid_client") →
      paypalAuth cfg fallback resp = .authError cfg c ec) ∧
    (resp cfg = .httpErr 401 "invalid_client" → fallback = false →
      paypalAuth cfg fallback resp = .authError cfg 401 "invalid_client") := by
  have halt : cfg.alternate ≠ cfg := alternate_ne cfg
  refine ⟨?_, ?_, ?_, ?_, ?_, ?_, ?_⟩
  · intro t h
    simp [paypalAuth, environmentCandidates, tokenAttempts, h]
  · intro t h hf ha
    subst hf
    simp [paypalAuth, environmentCandidates, tokenAttempts, h, ha, halt]
  · intro c ec h hf ha
    subst hf
    simp [paypalAuth, environmentCandidates, tokenAttempts, h, ha]
  · intro r h hf ha
    subst hf
    simp [paypalAuth, environmentCandidates, tokenAttempts, h, ha]
  · intro r h
    cases fallback <;>
      simp [paypalAuth, environmentCandidates, tokenAttempts, h]
  · intro c ec h hn
    cases fallback <;>
      simp [paypalAuth, environmentCandidates, tokenAttempts, h, hn]
  · intro h hf
    subst hf
    simp [paypalAuth, environmentCandidates, tokenAttempts, h]

def respC8w : PPEnv → AuthResp := fun e =>
  match e with
  | .live => .httpErr 401 "invalid_client"
  | .sandbox => .token "tok"

theorem C8_env_fallback_amended_witness :
    respC8w .live = .httpErr 401 "invalid_client" ∧
    paypalAuth .live true respC8w = .ok .sandbox true :=
  ⟨by decide,
    (C8_env_fallback_amended .live true respC8w).2.1 "tok" (by decide) rfl (by decide)⟩

/-! ## C9: the denormalized `products.stock` cache -/

/-- The invariant: every product's cached `stock` equals the sum of its
inventory-row quantities. -/
def stockInvariant (db : DB) : Prop :=
  ∀ p ∈ db.products, p.stock = sumQty db p.id

theorem sumQtyL_map_update (l : List InvRow) (k : VariantKey) (qnew : ℤ)
    (pid : Nat) (hne : pid ≠ k.productId) :
    sumQtyL (l.map (fun r => if r.key = k then { r with quantity := qnew } else r)) pid
      = sumQtyL l pid := by
  induction l with
  | nil => rfl
  | cons r rest ih =>
    by_cases hk : r.key = k
    · have hkp : ¬(k.productId = pid) := fun hx => hne hx.symm
      have hpid : ¬(r.key.productId = pid) := by rw [hk]; exact hkp
      simp [sumQtyL, hk, hkp, hpid] at ih ⊢
      exact ih
    · by_cases hpid : r.key.productId = pid
      · simp [sumQtyL, hk, hpid] at ih ⊢
        exact ih
      · simp [sumQtyL, hk, hpid] at ih ⊢
        exact ih

theorem sumQtyL_append_row (l : List InvRow) (k : VariantKey) (q : ℤ)
    (pid : Nat) (hne : pid ≠ k.productId) :
    sumQtyL (l ++ [⟨k, q⟩]) pid = sumQtyL l pid := by
  have hpid : ¬(k.productId = pid) := fun hx => hne hx.symm
  simp [sumQtyL, List.filter_append, hpid]

theorem sumQty_decrementItem_other (db : DB) (it : OrderItem) (pid : Nat)
    (hne : pid ≠ it.key.productId) :
    sumQty (decrementItem db it) pid = sumQty db pid := by
  unfold decrementItem
  rcases findInv db it.key with _ | r
  · rfl
  · exact sumQtyL_map_update db.inventory it.key _ pid hne

theorem stockInvariant_recomputeStock (db : DB) (pid : Nat)
    (h : ∀ p ∈ db.products, p.id ≠ pid → p.stock = sumQty db p.id) :
    stockInvariant (recomputeStock db pid) := by
  intro p' hp'
  unfold recomputeStock at hp'
  simp only [List.mem_map] at hp'
  obtain ⟨p, hp, rfl⟩ := hp'
  by_cases hid : p.id = pid
  · simp only [hid, if_pos rfl]
    show sumQty db pid = sumQty (recomputeStock db pid) _
    rfl
  · simp only [if_neg hid]
    show p.stock = sumQty (recomputeStock db pid) p.id
    exact h p hp hid

theorem stockInvariant_applyItem (db : DB) (it : OrderItem)
    (h : stockInvariant db) : stockInvariant (applyItem db it) := by
  unfold applyItem
  apply stockInvariant_recomputeStock
  intro p hp hne
  rw [decrementItem_products] at hp
  rw [sumQty_decrementItem_other db it p.id hne]
  exact h p hp

theorem stockInvariant_applyItems (db : DB) (items : List OrderItem)
    (h : stockInvariant db) : stockInvariant (applyItems db items) := by
  induction items generalizing db with
  | nil => exact h
  | cons it rest ih =>
    simp only [applyItems, List.foldl_cons]
    exact ih (applyItem db it) (stockInvariant_applyItem db it h)

theorem stockInvariant_applySuccess (db : DB) (o : Order) (cid pid : String)
    (h : stockInvariant db) : stockInvariant (applySuccess db o cid pid) := by
  intro p hp
  exact stockInvariant_applyItems db (itemsFor db o.id) h p hp

theorem stockInvariant_adminUpdateInventory (db : DB) (k : VariantKey) (q : Nat)
    (h : stockInvariant db) : stockInvariant (adminUpdateInventory db k q) := by
  unfold adminUpdateInventory
  rcases findInv db k with _ | r
  · apply stockInvariant_recomputeStock
    intro p hp hne
    show p.stock = sumQtyL (db.inventory ++ [⟨k, (q : ℤ)⟩]) p.id
    rw [sumQtyL_append_row db.inventory k _ p.id hne]
    exact h p hp
  · apply stockInvariant_recomputeStock
    intro p hp hne
    show p.stock = sumQtyL (db.inventory.map (fun r' =>
        if r'.key = k then { r' with quantity := (q : ℤ) } else r')) p.id
    rw [sumQtyL_map_update db.inventory k _ p.id hne]
    exact h p hp

/-- C9: both writers of inventory rows — the admin's absolute-set upsert
and the per-line decrements of a successful capture — re-establish the
cached-stock invariant: afterwards every product's `stock` equals the sum
of its inventory-row quantities. -/
theorem C9_stock_cache_recomputed (db : DB) (hinv : stockInvariant db) :
    (∀ k q, stockInvariant (adminUpdateInventory db k q)) ∧
    (∀ uid cart pid lid gw, (capture db uid cart pid lid gw).result = .ok →
      stockInvariant ((capture db uid cart pid lid gw).db)) := by
  constructor
  · intro k q
    exact stockInvariant_adminUpdateInventory db k q hinv
  · intro uid cart pid lid gw h
    obtain ⟨-, u, o, resp, -, -, -, -, -, heq⟩ :=
      capture_ok_elim db uid cart pid lid gw h
    rw [heq]
    exact stockInvariant_applySuccess db o _ pid hinv

def keyC9 : VariantKey := ⟨5, "Red", "M"⟩

def dbC9 : DB := ⟨[], [⟨5, "Tee", 20, "active", 3⟩], [⟨keyC9, 3⟩], [], [], []⟩

theorem C9_stock_cache_recomputed_witness :
    stockInvariant dbC9 ∧ stockInvariant (adminUpdateInventory dbC9 keyC9 7) :=
  ⟨by unfold stockInvariant; decide,
    (C9_stock_cache_recomputed dbC9 (by unfold stockInvariant; decide)).1 keyC9 7⟩
